import Mathlib

/-!
Shallow embedding of the core services of the `taishanglaojun` repository:
`services/ai/app/services/model_service.py` (class `ModelService`) and
`services/ai/app/services/vector_db.py` (class `VectorDBService`).

Python dictionaries are modelled as insertion-ordered association lists with
the usual dict operations (`dlookup`, `dset`, `derase`).  Calls into external
libraries (the provider SDKs reached through `_load_huggingface_model` /
`_load_sentence_transformers_model` / the OpenAI client, and the pymilvus
`utility` / `Collection` API) are modelled as oracles, and each service
operation additionally returns how many backend invocations it performed
(for the model loader) or the ordered trace of backend calls it issued
(for the vector-db service).  Python exceptions raised by a backend call are
modelled as `Except.error`; the services' `try/except` blocks catch them and
return the `(False, "...: {e}")` tuples exactly as the source does, keeping
whatever state mutations already happened.  Float-valued data (vector
components, scores, temperature, top_p) is never computed on by the services,
only passed through, so it is represented by `Int` placeholders.
-/

namespace Taishang

/-- Python-dict lookup `d.get(k)` / `d[k]` on an insertion-ordered assoc list. -/
def dlookup {α : Type} (l : List (String × α)) (k : String) : Option α :=
  match l with
  | [] => none
  | (k', v) :: t => if k' = k then some v else dlookup t k

/-- Python `k in d`. -/
def dmem {α : Type} (l : List (String × α)) (k : String) : Bool :=
  (dlookup l k).isSome

/-- Python `d[k] = v`: replace in place if the key is present, else append. -/
def dset {α : Type} (l : List (String × α)) (k : String) (v : α) :
    List (String × α) :=
  match l with
  | [] => [(k, v)]
  | (k', v') :: t => if k' = k then (k, v) :: t else (k', v') :: dset t k v

/-- Python `del d[k]` (removes the first binding of `k`). -/
def derase {α : Type} (l : List (String × α)) (k : String) : List (String × α) :=
  match l with
  | [] => []
  | (k', v') :: t => if k' = k then t else (k', v') :: derase t k

/-- Python `base.update(upd)` for dicts. -/
def dmerge {α : Type} (base upd : List (String × α)) : List (String × α) :=
  upd.foldl (fun acc p => dset acc p.1 p.2) base

/-- The keys of an assoc list, in order. -/
def dkeys {α : Type} (l : List (String × α)) : List String := l.map Prod.fst

/-- `app/models/model.py::ModelProvider` (the service additionally dispatches
on a `SENTENCE_TRANSFORMERS` tag). -/
inductive ModelProvider where
  | openai
  | huggingface
  | ollama
  | sentence_transformers
  | custom
deriving DecidableEq, Repr

/-- The `.value` string of the provider enum. -/
def ModelProvider.value : ModelProvider → String
  | .openai => "openai"
  | .huggingface => "huggingface"
  | .ollama => "ollama"
  | .sentence_transformers => "sentence_transformers"
  | .custom => "custom"

/-- The model descriptor stored in `ModelService.models`
(fields as constructed in `register_model`). -/
structure ModelConfigModel where
  name : String
  provider : ModelProvider
  model_path : String
  model_type : String
  description : String
  is_default : Bool
  config : List (String × String)
deriving DecidableEq, Repr

/-- Argument of `ModelService.register_model`. -/
structure RegisterModelRequestModel where
  name : String
  provider : ModelProvider
  model_path : String
  model_type : String
  description : String
  is_default : Bool
  config : List (String × String)
deriving DecidableEq, Repr

/-- Argument of `ModelService.update_model`; `none` fields are "not provided". -/
structure UpdateModelRequestModel where
  name : String
  provider : Option ModelProvider
  model_path : Option String
  model_type : Option String
  description : Option String
  is_default : Option Bool
  config : Option (List (String × String))
deriving DecidableEq, Repr

/-- A value stored in `ModelService.loaded_models`: the `{"tokenizer","model"}`
dict of the HuggingFace path, the literal string `"openai"`, or a
SentenceTransformer object; backend objects are opaque and numbered. -/
inductive LoadedModel where
  | hfHandle (n : Nat)
  | openaiMarker
  | stHandle (n : Nat)
deriving DecidableEq, Repr

/-- Argument of `ModelService.generate_text`. `model_name = none` or
`some ""` are both falsy in Python's `if not model_name`. -/
structure TextGenerationRequestModel where
  model_name : Option String
  prompt : String
  max_tokens : Int
  temperature : Int
  top_p : Int
deriving DecidableEq, Repr

/-- Result payload of `ModelService.generate_text`. -/
structure TextGenerationResponseModel where
  text : String
  model_name : String
  tokens_used : Int
  finish_reason : String
deriving DecidableEq, Repr

/-- Argument of `ModelService.generate_embedding`. -/
structure EmbeddingRequestModel where
  model_name : Option String
  text : String
deriving DecidableEq, Repr

/-- Result payload of `ModelService.generate_embedding`. -/
structure EmbeddingResponseModel where
  embedding : List Int
  model_name : String
  dimension : Nat
deriving DecidableEq, Repr

/-- Python truthiness of an optional string (`if not model_name`). -/
def pyTruthy : Option String → Bool
  | none => false
  | some s => s ≠ ""

/-- Oracle for the external provider SDKs: `load` stands for the library work
done by `_load_huggingface_model` / `_load_sentence_transformers_model` on one
descriptor (one backend load invocation), `generate` for
`_generate_with_huggingface` / `_generate_with_openai`, and `embed` for the
three `_embed_with_*` helpers.  `Except.error` models a raised exception. -/
structure ProviderBackend where
  load : ModelConfigModel → Except String LoadedModel
  generate : ModelConfigModel → TextGenerationRequestModel → Except String (String × Int)
  embed : ModelConfigModel → String → Except String (List Int)

/-- Mutable state of a `ModelService` instance: the `models` registry, the
`loaded_models` cache, and whether `_init_openai` produced a client. -/
structure ModelServiceState where
  models : List (String × ModelConfigModel)
  loaded_models : List (String × LoadedModel)
  openai_client : Bool
deriving DecidableEq, Repr

/-- `ModelService.__init__` (registry and cache start empty). -/
def initState (openai_client : Bool) : ModelServiceState :=
  { models := [], loaded_models := [], openai_client := openai_client }

/-- The loop in `register_model` / `update_model` that, when the incoming
descriptor is default, sets `config.is_default = False` on every model whose
name differs from the request's. -/
def unset_other_defaults (reqName : String)
    (models : List (String × ModelConfigModel)) :
    List (String × ModelConfigModel) :=
  models.map (fun p =>
    if p.1 ≠ reqName then (p.1, { p.2 with is_default := false }) else p)

/-- `ModelService.register_model`. -/
def register_model (st : ModelServiceState) (request : RegisterModelRequestModel) :
    (Bool × String) × ModelServiceState :=
  if dmem st.models request.name then
    ((false, "Model " ++ request.name ++ " already registered"), st)
  else
    let model_config : ModelConfigModel :=
      { name := request.name
        provider := request.provider
        model_path := request.model_path
        model_type := request.model_type
        description := request.description
        is_default := request.is_default
        config := request.config }
    let models1 := dset st.models request.name model_config
    let models2 :=
      if request.is_default then unset_other_defaults request.name models1
      else models1
    ((true, "Model " ++ request.name ++ " registered successfully"),
      { st with models := models2 })

/-- `ModelService.unload_model`. -/
def unload_model (st : ModelServiceState) (name : String) :
    (Bool × String) × ModelServiceState :=
  if ¬ dmem st.loaded_models name then
    ((true, "Model " ++ name ++ " not loaded"), st)
  else
    ((true, "Model " ++ name ++ " unloaded successfully"),
      { st with loaded_models := derase st.loaded_models name })

/-- The field-by-field partial update of `update_model` (lines 79-95):
each provided field overwrites the stored one, and a provided `config` dict is
merged into the stored one. -/
def apply_update_fields (model_config : ModelConfigModel)
    (request : UpdateModelRequestModel) : ModelConfigModel :=
  let cfg1 := match request.provider with
    | some v => { model_config with provider := v } | none => model_config
  let cfg2 := match request.model_path with
    | some v => { cfg1 with model_path := v } | none => cfg1
  let cfg3 := match request.model_type with
    | some v => { cfg2 with model_type := v } | none => cfg2
  let cfg4 := match request.description with
    | some v => { cfg3 with description := v } | none => cfg3
  let cfg5 := match request.is_default with
    | some v => { cfg4 with is_default := v } | none => cfg4
  match request.config with
    | some c => { cfg5 with config := dmerge cfg5.config c } | none => cfg5

/-- `ModelService.update_model`: partial field update, the default flip when
`is_default=True` is provided, config-dict merge, then unload-if-loaded. -/
def update_model (st : ModelServiceState) (request : UpdateModelRequestModel) :
    (Bool × String) × ModelServiceState :=
  match dlookup st.models request.name with
  | none => ((false, "Model " ++ request.name ++ " not found"), st)
  | some model_config =>
    let cfg6 := apply_update_fields model_config request
    let models1 := dset st.models request.name cfg6
    let models2 :=
      if request.is_default = some true then
        unset_other_defaults request.name models1
      else models1
    let st1 : ModelServiceState := { st with models := models2 }
    let st2 :=
      if dmem st1.loaded_models request.name then (unload_model st1 request.name).2
      else st1
    ((true, "Model " ++ request.name ++ " updated successfully"), st2)

/-- `ModelService.unregister_model`. -/
def unregister_model (st : ModelServiceState) (name : String) :
    (Bool × String) × ModelServiceState :=
  if ¬ dmem st.models name then
    ((false, "Model " ++ name ++ " not found"), st)
  else
    let st1 :=
      if dmem st.loaded_models name then (unload_model st name).2
      else st
    ((true, "Model " ++ name ++ " unregistered successfully"),
      { st1 with models := derase st1.models name })

/-- `ModelService.get_model`. -/
def get_model (st : ModelServiceState) (name : String) : Option ModelConfigModel :=
  dlookup st.models name

/-- `ModelService.get_default_model`: first registered config of the given
type with `is_default` set. -/
def get_default_model (st : ModelServiceState) (model_type : String) :
    Option ModelConfigModel :=
  (st.models.find? (fun p => p.2.model_type == model_type && p.2.is_default)).map
    Prod.snd

/-- `ModelService._load_huggingface_model`: dispatch on `model_type`, raising
`ValueError` for unsupported types before any library call; returns the
result together with the number of backend load invocations performed. -/
def load_huggingface_model (B : ProviderBackend) (config : ModelConfigModel) :
    Except String LoadedModel × Nat :=
  if config.model_type = "embedding" then (B.load config, 1)
  else if config.model_type = "generation" then (B.load config, 1)
  else (Except.error ("Unsupported model type: " ++ config.model_type), 0)

/-- `ModelService._load_sentence_transformers_model`. -/
def load_sentence_transformers_model (B : ProviderBackend)
    (config : ModelConfigModel) : Except String LoadedModel × Nat :=
  (B.load config, 1)

/-- Outcome of the guard section of `load_model` (lines 147-153):
either an early return, or fall through with the config to load. -/
inductive LoadCheck where
  | earlyReturn (r : Bool × String)
  | proceed (cfg : ModelConfigModel)
deriving DecidableEq, Repr

/-- The guard section of `ModelService.load_model`: not-registered check,
then already-loaded check. -/
def load_model_check (st : ModelServiceState) (name : String) : LoadCheck :=
  match dlookup st.models name with
  | none => .earlyReturn (false, "Model " ++ name ++ " not found")
  | some cfg =>
    if dmem st.loaded_models name then
      .earlyReturn (true, "Model " ++ name ++ " already loaded")
    else .proceed cfg

/-- The body of `ModelService.load_model` after the guards (lines 155-178):
provider dispatch, the backend load, and the store into `loaded_models`;
the exception of a failed backend load is caught and turned into
`(False, "Failed to load model: ...")`.  The final `Nat` counts the backend
load invocations this call performed. -/
def load_model_perform (B : ProviderBackend) (st : ModelServiceState)
    (name : String) (model_config : ModelConfigModel) :
    (Bool × String) × ModelServiceState × Nat :=
  match model_config.provider with
  | .huggingface =>
    match load_huggingface_model B model_config with
    | (.ok m, n) =>
      ((true, "Model " ++ name ++ " loaded successfully"),
        { st with loaded_models := dset st.loaded_models name m }, n)
    | (.error e, n) => ((false, "Failed to load model: " ++ e), st, n)
  | .openai =>
    if ¬ st.openai_client then
      ((false, "OpenAI client not initialized"), st, 0)
    else
      ((true, "Model " ++ name ++ " loaded successfully"),
        { st with loaded_models := dset st.loaded_models name .openaiMarker }, 0)
  | .sentence_transformers =>
    match load_sentence_transformers_model B model_config with
    | (.ok m, n) =>
      ((true, "Model " ++ name ++ " loaded successfully"),
        { st with loaded_models := dset st.loaded_models name m }, n)
    | (.error e, n) => ((false, "Failed to load model: " ++ e), st, n)
  | p => ((false, "Unsupported provider: " ++ p.value), st, 0)

/-- `ModelService.load_model` = guards, then the loading body. -/
def load_model (B : ProviderBackend) (st : ModelServiceState) (name : String) :
    (Bool × String) × ModelServiceState × Nat :=
  match load_model_check st name with
  | .earlyReturn r => (r, st, 0)
  | .proceed cfg => load_model_perform B st name cfg

/-- `ModelService.is_model_loaded`. -/
def is_model_loaded (st : ModelServiceState) (name : String) : Bool :=
  dmem st.loaded_models name

/-- The provider-dispatch tail of `ModelService.generate_text`
(lines 242-261): reads the config and the loaded handle and calls the
provider's generate; a backend raise (or the `KeyError` of a missing dict
entry) is caught into `(False, "Failed to generate text: ...", None)`. -/
def generate_text_dispatch (B : ProviderBackend) (st1 : ModelServiceState)
    (model_name : String) (request : TextGenerationRequestModel) :
    Bool × String × Option TextGenerationResponseModel :=
  match dlookup st1.models model_name, dlookup st1.loaded_models model_name with
  | some model_config, some _loaded_model =>
    match model_config.provider with
    | .huggingface =>
      match B.generate model_config request with
      | .ok (text, tokens) =>
        (true, "Text generated successfully",
          some { text := text, model_name := model_name,
                 tokens_used := tokens, finish_reason := "completed" })
      | .error e => (false, "Failed to generate text: " ++ e, none)
    | .openai =>
      if ¬ st1.openai_client then
        (false, "Failed to generate text: openai client is None", none)
      else
        match B.generate model_config request with
        | .ok (text, tokens) =>
          (true, "Text generated successfully",
            some { text := text, model_name := model_name,
                   tokens_used := tokens, finish_reason := "completed" })
        | .error e => (false, "Failed to generate text: " ++ e, none)
    | p => (false, "Text generation not supported for provider: " ++ p.value, none)
  | _, _ => (false, "Failed to generate text: KeyError", none)

/-- `ModelService.generate_text`, after the model name has been resolved
(lines 233-261): require registration, lazily load, then the dispatch tail.
The `Nat` counts backend load invocations performed. -/
def generate_text_after_resolve (B : ProviderBackend) (st : ModelServiceState)
    (request : TextGenerationRequestModel) (model_name : String) :
    (Bool × String × Option TextGenerationResponseModel) × ModelServiceState × Nat :=
  if ¬ dmem st.models model_name then
    ((false, "Model " ++ model_name ++ " not found", none), st, 0)
  else
    match (if ¬ dmem st.loaded_models model_name then load_model B st model_name
           else ((true, "already loaded"), st, 0)) with
    | ((false, message), st1, n) => ((false, message, none), st1, n)
    | ((true, _), st1, n) =>
      (generate_text_dispatch B st1 model_name request, st1, n)

/-- `ModelService.generate_text`: resolve the model (explicit name or the
registered generation default), then the post-resolution body. -/
def generate_text (B : ProviderBackend) (st : ModelServiceState)
    (request : TextGenerationRequestModel) :
    (Bool × String × Option TextGenerationResponseModel) × ModelServiceState × Nat :=
  match (if pyTruthy request.model_name then .ok (request.model_name.getD "")
         else
           match get_default_model st "generation" with
           | none => .error "No default generation model available"
           | some default_model => .ok default_model.name :
         Except String String) with
  | .error msg => ((false, msg, none), st, 0)
  | .ok model_name => generate_text_after_resolve B st request model_name

/-- The provider-dispatch tail of `ModelService.generate_embedding`
(lines 331-351). -/
def generate_embedding_dispatch (B : ProviderBackend) (st1 : ModelServiceState)
    (model_name : String) (request : EmbeddingRequestModel) :
    Bool × String × Option EmbeddingResponseModel :=
  match dlookup st1.models model_name, dlookup st1.loaded_models model_name with
  | some model_config, some _loaded_model =>
    match model_config.provider with
    | .huggingface =>
      match B.embed model_config request.text with
      | .ok embedding =>
        (true, "Embedding generated successfully",
          some { embedding := embedding, model_name := model_name,
                 dimension := embedding.length })
      | .error e => (false, "Failed to generate embedding: " ++ e, none)
    | .openai =>
      if ¬ st1.openai_client then
        (false, "Failed to generate embedding: openai client is None", none)
      else
        match B.embed model_config request.text with
        | .ok embedding =>
          (true, "Embedding generated successfully",
            some { embedding := embedding, model_name := model_name,
                   dimension := embedding.length })
        | .error e => (false, "Failed to generate embedding: " ++ e, none)
    | .sentence_transformers =>
      match B.embed model_config request.text with
      | .ok embedding =>
        (true, "Embedding generated successfully",
          some { embedding := embedding, model_name := model_name,
                 dimension := embedding.length })
      | .error e => (false, "Failed to generate embedding: " ++ e, none)
    | p => (false, "Embedding not supported for provider: " ++ p.value, none)
  | _, _ => (false, "Failed to generate embedding: KeyError", none)

/-- `ModelService.generate_embedding` after name resolution
(lines 321-351). -/
def generate_embedding_after_resolve (B : ProviderBackend) (st : ModelServiceState)
    (request : EmbeddingRequestModel) (model_name : String) :
    (Bool × String × Option EmbeddingResponseModel) × ModelServiceState × Nat :=
  if ¬ dmem st.models model_name then
    ((false, "Model " ++ model_name ++ " not found", none), st, 0)
  else
    match (if ¬ dmem st.loaded_models model_name then load_model B st model_name
           else ((true, "already loaded"), st, 0)) with
    | ((false, message), st1, n) => ((false, message, none), st1, n)
    | ((true, _), st1, n) =>
      (generate_embedding_dispatch B st1 model_name request, st1, n)

/-- `ModelService.generate_embedding`: same resolution and lazy-load pattern
against the `"embedding"` default type. -/
def generate_embedding (B : ProviderBackend) (st : ModelServiceState)
    (request : EmbeddingRequestModel) :
    (Bool × String × Option EmbeddingResponseModel) × ModelServiceState × Nat :=
  match (if pyTruthy request.model_name then .ok (request.model_name.getD "")
         else
           match get_default_model st "embedding" with
           | none => .error "No default embedding model available"
           | some default_model => .ok default_model.name :
         Except String String) with
  | .error msg => ((false, msg, none), st, 0)
  | .ok model_name => generate_embedding_after_resolve B st request model_name

/-- One public `ModelService` operation; loads and dispatch operations carry
the provider oracle serving that call. -/
inductive Op where
  | register (r : RegisterModelRequestModel)
  | update (r : UpdateModelRequestModel)
  | unregister (name : String)
  | load (B : ProviderBackend) (name : String)
  | unload (name : String)
  | generateText (B : ProviderBackend) (r : TextGenerationRequestModel)
  | generateEmbedding (B : ProviderBackend) (r : EmbeddingRequestModel)

/-- State transition of one operation. -/
def applyOp (st : ModelServiceState) : Op → ModelServiceState
  | .register r => (register_model st r).2
  | .update r => (update_model st r).2
  | .unregister name => (unregister_model st name).2
  | .load B name => (load_model B st name).2.1
  | .unload name => (unload_model st name).2
  | .generateText B r => (generate_text B st r).2.1
  | .generateEmbedding B r => (generate_embedding B st r).2.1

/-- The state reached by a fresh `ModelService` after a sequence of operations. -/
def run (openai_client : Bool) (ops : List Op) : ModelServiceState :=
  ops.foldl applyOp (initState openai_client)

/-- Two threads each execute `load_model name`, interleaved so that both run
the guard section (`load_model_check`) against the same state before either
runs the loading body; the second body runs on the state the first left.
Returns the total number of backend load invocations. -/
def race_two_loads (B : ProviderBackend) (st : ModelServiceState) (name : String) :
    Nat :=
  match load_model_check st name, load_model_check st name with
  | .proceed cfg1, .proceed cfg2 =>
    let r1 := load_model_perform B st name cfg1
    let r2 := load_model_perform B r1.2.1 name cfg2
    r1.2.2 + r2.2.2
  | .proceed cfg1, .earlyReturn _ => (load_model_perform B st name cfg1).2.2
  | .earlyReturn _, .proceed cfg2 => (load_model_perform B st name cfg2).2.2
  | .earlyReturn _, .earlyReturn _ => 0

/-- Two `load_model name` calls executed one after the other (no overlap);
total number of backend load invocations. -/
def sequential_two_loads (B : ProviderBackend) (st : ModelServiceState)
    (name : String) : Nat :=
  let r1 := load_model B st name
  let r2 := load_model B r1.2.1 name
  r1.2.2 + r2.2.2

/-- `app/models/vector.py::IndexType`. -/
inductive IndexType where
  | flat
  | ivf_flat
  | ivf_sq8
  | hnsw
deriving DecidableEq, Repr

/-- `app/models/vector.py::MetricType`. -/
inductive MetricType where
  | l2
  | ip
  | cosine
  | hamming
  | jaccard
  | tanimoto
  | substructure
  | superstructure
deriving DecidableEq, Repr

/-- `app/models/vector.py::IndexParamsModel` (the provider-specific `params`
dict holds opaque values). -/
structure IndexParamsModel where
  index_type : IndexType
  metric_type : MetricType
  params : List (String × String)
deriving DecidableEq, Repr

/-- `app/models/vector.py::VectorModel`; vector components are opaque
float stand-ins. -/
structure VectorModel where
  id : String
  vector : List Int
  metadata : Option (List (String × String))
deriving DecidableEq, Repr

/-- `app/models/vector.py::SearchOptionsModel`. -/
structure SearchOptionsModel where
  topk : Int
  include_vector : Bool
  filter : Option (List (String × String))
deriving DecidableEq, Repr

/-- `app/models/vector.py::SearchResultModel`. -/
structure SearchResultModel where
  id : String
  score : Int
  vector : Option (List Int)
  metadata : Option (List (String × String))
deriving DecidableEq, Repr

/-- One Milvus collection as held by the external vector store: schema
description, the `dim` given to the vector `FieldSchema`, the (at most one)
index, the stored rows `(primary key, vector)`, and the warm/loaded flag. -/
structure MilvusCollection where
  description : String
  dim : Int
  index : Option IndexParamsModel
  records : List (String × List Int)
  loaded : Bool
deriving DecidableEq, Repr

/-- The external Milvus server state: its named collections. -/
abbrev MilvusState := List (String × MilvusCollection)

/-- One call issued to the pymilvus backend (`utility.*` or `Collection.*`). -/
inductive MilvusCall where
  | hasCollection (name : String)
  | createCollection (name : String) (dim : Int)
  | createIndex (name : String)
  | dropCollection (name : String)
  | insertRows (name : String) (rows : List (String × List Int))
  | upsertRows (name : String) (rows : List (String × List Int))
  | deleteRows (name : String) (ids : List String)
  | loadCollection (name : String)
  | searchCollection (name : String) (query : List Int) (limit : Int)
deriving DecidableEq, Repr

/-- Injectable backend failures: whether the pymilvus calls creating the
collection object or its index raise for a given collection name. -/
structure MilvusBehavior where
  create_collection_fails : String → Bool
  create_index_fails : String → Bool

/-- A behavior in which every backend call succeeds. -/
def behOk : MilvusBehavior :=
  { create_collection_fails := fun _ => false
    create_index_fails := fun _ => false }

/-- The Milvus server's own insert: the engine rejects a batch containing a
vector whose length differs from the collection's declared dimension,
otherwise appends the rows. -/
def milvus_insert (c : MilvusCollection) (rows : List (String × List Int)) :
    Except String MilvusCollection :=
  if rows.all (fun r => (r.2.length : Int) == c.dim) then
    .ok { c with records := c.records ++ rows }
  else .error "vector dimension mismatch"

/-- The Milvus server's own upsert: same dimension check; rows replace an
existing primary key or are appended. -/
def milvus_upsert (c : MilvusCollection) (rows : List (String × List Int)) :
    Except String MilvusCollection :=
  if rows.all (fun r => (r.2.length : Int) == c.dim) then
    .ok { c with records := rows.foldl (fun acc r => dset acc r.1 r.2) c.records }
  else .error "vector dimension mismatch"

/-- The Milvus server's ANN search: an opaque engine ranking; only the shape
of the hit list (ids and scores drawn from the stored rows, at most `limit`
of them) matters to the service code. -/
def milvus_search (c : MilvusCollection) (_query : List Int) (limit : Int) :
    List (String × Int) :=
  (c.records.take limit.toNat).map (fun r => (r.1, 0))

/-- `VectorDBService.create_collection`: existence check, schema + collection
creation, then index creation; any raise is caught into
`(False, "Failed to create collection: ...")`, keeping the side effects made
so far.  Returns the result, the new Milvus state, and the ordered backend
call trace. -/
def create_collection (beh : MilvusBehavior) (ms : MilvusState)
    (name description : String) (vector_dim : Int)
    (index_params : IndexParamsModel) :
    (Bool × String) × MilvusState × List MilvusCall :=
  if dmem ms name then
    ((false, "Collection " ++ name ++ " already exists"), ms, [.hasCollection name])
  else if beh.create_collection_fails name then
    ((false, "Failed to create collection: backend rejected collection"), ms,
      [.hasCollection name, .createCollection name vector_dim])
  else
    let ms1 := dset ms name
      { description := description, dim := vector_dim, index := none,
        records := [], loaded := false }
    if beh.create_index_fails name then
      ((false, "Failed to create collection: backend rejected index"), ms1,
        [.hasCollection name, .createCollection name vector_dim, .createIndex name])
    else
      let ms2 := dset ms1 name
        { description := description, dim := vector_dim,
          index := some index_params, records := [], loaded := false }
      ((true, "Collection " ++ name ++ " created successfully"), ms2,
        [.hasCollection name, .createCollection name vector_dim, .createIndex name])

/-- `VectorDBService.drop_collection`. -/
def drop_collection (ms : MilvusState) (name : String) :
    (Bool × String) × MilvusState × List MilvusCall :=
  if ¬ dmem ms name then
    ((false, "Collection " ++ name ++ " does not exist"), ms, [.hasCollection name])
  else
    ((true, "Collection " ++ name ++ " dropped successfully"), derase ms name,
      [.hasCollection name, .dropCollection name])

/-- `VectorDBService.insert`: existence check, then the ids and vectors are
handed to the backend insert unconditionally; a backend raise is caught into
`(False, "Failed to insert vectors: ...", [])`. -/
def insert (ms : MilvusState) (collection_name : String)
    (vectors : List VectorModel) :
    (Bool × String × List String) × MilvusState × List MilvusCall :=
  match dlookup ms collection_name with
  | none =>
    ((false, "Collection " ++ collection_name ++ " does not exist", []), ms,
      [.hasCollection collection_name])
  | some c =>
    let ids := vectors.map VectorModel.id
    let vectors_data := vectors.map VectorModel.vector
    let rows := ids.zip vectors_data
    match milvus_insert c rows with
    | .ok c1 =>
      ((true, "Inserted " ++ toString vectors.length ++ " vectors successfully", ids),
        dset ms collection_name c1,
        [.hasCollection collection_name, .insertRows collection_name rows])
    | .error e =>
      ((false, "Failed to insert vectors: " ++ e, []), ms,
        [.hasCollection collection_name, .insertRows collection_name rows])

/-- `VectorDBService.upsert`: identical shape to `insert` with the backend
upsert. -/
def upsert (ms : MilvusState) (collection_name : String)
    (vectors : List VectorModel) :
    (Bool × String × List String) × MilvusState × List MilvusCall :=
  match dlookup ms collection_name with
  | none =>
    ((false, "Collection " ++ collection_name ++ " does not exist", []), ms,
      [.hasCollection collection_name])
  | some c =>
    let ids := vectors.map VectorModel.id
    let vectors_data := vectors.map VectorModel.vector
    let rows := ids.zip vectors_data
    match milvus_upsert c rows with
    | .ok c1 =>
      ((true, "Upserted " ++ toString vectors.length ++ " vectors successfully", ids),
        dset ms collection_name c1,
        [.hasCollection collection_name, .upsertRows collection_name rows])
    | .error e =>
      ((false, "Failed to upsert vectors: " ++ e, []), ms,
        [.hasCollection collection_name, .upsertRows collection_name rows])

/-- The per-hit result construction inside `VectorDBService.search`
(lines 337-343): the `vector` field is the *query* vector when
`include_vector` is requested and `None` otherwise, and `metadata` is the
empty dict. -/
def search_hit_to_result (query_vector : List Int)
    (options : SearchOptionsModel) (h : String × Int) : SearchResultModel :=
  { id := h.1, score := h.2,
    vector := if options.include_vector then some query_vector else none,
    metadata := some [] }

/-- `VectorDBService.search`: existence check, warm-up `collection.load()`,
backend search, then the per-hit result mapping. -/
def search (ms : MilvusState) (collection_name : String)
    (query_vector : List Int) (options : SearchOptionsModel) :
    (Bool × String × List SearchResultModel) × MilvusState × List MilvusCall :=
  match dlookup ms collection_name with
  | none =>
    ((false, "Collection " ++ collection_name ++ " does not exist", []), ms,
      [.hasCollection collection_name])
  | some c =>
    let c1 := { c with loaded := true }
    let ms1 := dset ms collection_name c1
    let hits := milvus_search c1 query_vector options.topk
    let search_results := hits.map (search_hit_to_result query_vector options)
    ((true, "Found " ++ toString search_results.length ++ " results", search_results),
      ms1,
      [.hasCollection collection_name, .loadCollection collection_name,
        .searchCollection collection_name query_vector options.topk])


theorem dlookup_dset_self {α : Type} (l : List (String × α)) (k : String) (v : α) :
    dlookup (dset l k v) k = some v := by
  induction l with
  | nil => simp [dset, dlookup]
  | cons p t ih =>
    obtain ⟨k0, v0⟩ := p
    by_cases h0 : k0 = k
    · simp [dset, h0, dlookup]
    · simp [dset, h0, dlookup, ih]

theorem dlookup_dset_ne {α : Type} (l : List (String × α)) (k k' : String) (v : α)
    (h : k' ≠ k) : dlookup (dset l k v) k' = dlookup l k' := by
  have hk : k ≠ k' := fun hh => h hh.symm
  induction l with
  | nil => simp [dset, dlookup, hk]
  | cons p t ih =>
    obtain ⟨k0, v0⟩ := p
    by_cases h0 : k0 = k
    · subst h0
      simp [dset, dlookup, hk]
    · simp [dset, h0, dlookup, ih]

theorem dmem_dset {α : Type} (l : List (String × α)) (k k' : String) (v : α) :
    dmem (dset l k v) k' = true ↔ k' = k ∨ dmem l k' = true := by
  by_cases h : k' = k
  · subst h
    simp [dmem, dlookup_dset_self]
  · simp [dmem, dlookup_dset_ne l k k' v h, h]

theorem dmem_iff_exists {α : Type} (l : List (String × α)) (k : String) :
    dmem l k = true ↔ ∃ v, dlookup l k = some v := by
  simp [dmem, Option.isSome_iff_exists]

theorem dmem_of_mem {α : Type} (l : List (String × α)) (k : String) (v : α)
    (h : (k, v) ∈ l) : dmem l k = true := by
  induction l with
  | nil => simp at h
  | cons p t ih =>
    obtain ⟨k0, v0⟩ := p
    by_cases h0 : k0 = k
    · simp [dmem, dlookup, h0]
    · rcases List.mem_cons.mp h with h1 | h2
      · exact absurd (congrArg Prod.fst h1.symm) h0
      · simpa [dmem, dlookup, h0] using ih h2

theorem mem_dkeys_iff {α : Type} (l : List (String × α)) (k : String) :
    k ∈ dkeys l ↔ dmem l k = true := by
  induction l with
  | nil => simp [dkeys, dmem, dlookup]
  | cons p t ih =>
    obtain ⟨k0, v0⟩ := p
    by_cases h0 : k0 = k
    · simp [dkeys, dmem, dlookup, h0]
    · simpa [dkeys, dmem, dlookup, h0, Ne.symm h0] using ih

theorem mem_dkeys_dset {α : Type} (l : List (String × α)) (k b : String) (v : α)
    (h : b ∈ dkeys (dset l k v)) : b = k ∨ b ∈ dkeys l := by
  induction l with
  | nil => simpa [dset, dkeys] using h
  | cons p t ih =>
    obtain ⟨k0, v0⟩ := p
    by_cases h0 : k0 = k
    · subst h0
      rcases (by simpa [dset, dkeys] using h : b = k0 ∨ b ∈ dkeys t) with h1 | h1
      · exact Or.inl h1
      · exact Or.inr (by rw [dkeys, List.map_cons]; exact List.mem_cons_of_mem _ h1)
    · rcases (by simpa [dset, h0, dkeys] using h : b = k0 ∨ b ∈ dkeys (dset t k v)) with h1 | h1
      · exact Or.inr (by rw [dkeys, List.map_cons, h1]; exact List.mem_cons_self _ _)
      · rcases ih h1 with h2 | h2
        · exact Or.inl h2
        · exact Or.inr (by rw [dkeys, List.map_cons]; exact List.mem_cons_of_mem _ h2)

theorem nodup_dkeys_dset {α : Type} (l : List (String × α)) (k : String) (v : α)
    (hn : (dkeys l).Nodup) : (dkeys (dset l k v)).Nodup := by
  induction l with
  | nil => simp [dset, dkeys]
  | cons p t ih =>
    obtain ⟨k0, v0⟩ := p
    rw [dkeys, List.map_cons, List.nodup_cons] at hn
    by_cases h0 : k0 = k
    · subst h0
      rw [show dset ((k0, v0) :: t) k0 v = (k0, v) :: t by simp [dset]]
      rw [dkeys, List.map_cons, List.nodup_cons]
      exact ⟨hn.1, hn.2⟩
    · rw [show dset ((k0, v0) :: t) k v = (k0, v0) :: dset t k v by simp [dset, h0]]
      rw [dkeys, List.map_cons, List.nodup_cons]
      refine ⟨?_, ih hn.2⟩
      intro hb
      rcases mem_dkeys_dset t k k0 v hb with h1 | h1
      · exact h0 h1
      · exact hn.1 h1

theorem derase_sublist {α : Type} (l : List (String × α)) (k : String) :
    (derase l k).Sublist l := by
  induction l with
  | nil => simp [derase]
  | cons p t ih =>
    obtain ⟨k0, v0⟩ := p
    by_cases h0 : k0 = k
    · rw [show derase ((k0, v0) :: t) k = t by simp [derase, h0]]
      exact List.sublist_cons_of_sublist _ (List.Sublist.refl t)
    · rw [show derase ((k0, v0) :: t) k = (k0, v0) :: derase t k by simp [derase, h0]]
      exact List.Sublist.cons₂ _ ih

theorem nodup_dkeys_derase {α : Type} (l : List (String × α)) (k : String)
    (hn : (dkeys l).Nodup) : (dkeys (derase l k)).Nodup :=
  List.Nodup.sublist (List.Sublist.map Prod.fst (derase_sublist l k)) hn

theorem dmem_derase_imp {α : Type} (l : List (String × α)) (k k' : String)
    (h : dmem (derase l k) k' = true) : dmem l k' = true := by
  rw [← mem_dkeys_iff] at h ⊢
  exact (List.Sublist.map Prod.fst (derase_sublist l k)).mem h

theorem dlookup_derase_self {α : Type} (l : List (String × α)) (k : String)
    (hn : (dkeys l).Nodup) : dlookup (derase l k) k = none := by
  induction l with
  | nil => simp [derase, dlookup]
  | cons p t ih =>
    obtain ⟨k0, v0⟩ := p
    rw [dkeys, List.map_cons, List.nodup_cons] at hn
    by_cases h0 : k0 = k
    · subst h0
      rw [show derase ((k0, v0) :: t) k0 = t by simp [derase]]
      rcases hmem : dlookup t k0 with _ | w
      · rfl
      · exact absurd ((mem_dkeys_iff t k0).mpr (by simp [dmem, hmem])) hn.1
    · rw [show derase ((k0, v0) :: t) k = (k0, v0) :: derase t k by simp [derase, h0]]
      simp [dlookup, h0, ih hn.2]

theorem dmem_derase_self {α : Type} (l : List (String × α)) (k : String)
    (hn : (dkeys l).Nodup) : dmem (derase l k) k = false := by
  simp [dmem, dlookup_derase_self l k hn]


theorem dlookup_derase_ne {α : Type} (l : List (String × α)) (k k' : String)
    (h : k' ≠ k) : dlookup (derase l k) k' = dlookup l k' := by
  induction l with
  | nil => simp [derase]
  | cons p t ih =>
    obtain ⟨k0, v0⟩ := p
    by_cases h0 : k0 = k
    · subst h0
      rw [show derase ((k0, v0) :: t) k0 = t by simp [derase]]
      have hne : ¬ (k0 = k') := fun hh => h (hh.symm.trans rfl)
      simp [dlookup, hne]
    · rw [show derase ((k0, v0) :: t) k = (k0, v0) :: derase t k by simp [derase, h0]]
      simp [dlookup, ih]

theorem dmem_derase_ne {α : Type} (l : List (String × α)) (k k' : String)
    (h : k' ≠ k) : dmem (derase l k) k' = dmem l k' := by
  simp [dmem, dlookup_derase_ne l k k' h]

theorem dkeys_map_fst {α β : Type} (l : List (String × α))
    (f : String × α → String × β) (hf : ∀ p, (f p).1 = p.1) :
    dkeys (l.map f) = dkeys l := by
  induction l with
  | nil => rfl
  | cons p t ih =>
    simp only [List.map_cons, dkeys] at ih ⊢
    rw [hf p, ih]

theorem dkeys_unset_other_defaults (n : String)
    (l : List (String × ModelConfigModel)) :
    dkeys (unset_other_defaults n l) = dkeys l := by
  refine dkeys_map_fst l _ ?_
  intro p
  by_cases h : p.1 ≠ n
  · simp [h]
  · simp [h]

theorem unset_other_defaults_cons (n k0 : String) (v0 : ModelConfigModel)
    (t : List (String × ModelConfigModel)) :
    unset_other_defaults n ((k0, v0) :: t) =
      (if k0 ≠ n then (k0, { v0 with is_default := false }) else (k0, v0)) ::
        unset_other_defaults n t := rfl

theorem dlookup_unset_other_defaults (n : String)
    (l : List (String × ModelConfigModel)) (k : String) :
    dlookup (unset_other_defaults n l) k =
      (dlookup l k).map
        (fun c => if k ≠ n then { c with is_default := false } else c) := by
  induction l with
  | nil => rfl
  | cons p t ih =>
    obtain ⟨k0, v0⟩ := p
    rw [unset_other_defaults_cons]
    by_cases hn : k0 ≠ n
    · rw [if_pos hn]
      by_cases hk : k0 = k
      · subst hk
        rw [show dlookup ((k0, { v0 with is_default := false }) ::
              unset_other_defaults n t) k0 = some { v0 with is_default := false } by
            simp [dlookup]]
        rw [show dlookup ((k0, v0) :: t) k0 = some v0 by simp [dlookup]]
        simp [hn]
      · rw [show dlookup ((k0, { v0 with is_default := false }) ::
              unset_other_defaults n t) k = dlookup (unset_other_defaults n t) k by
            simp [dlookup, hk]]
        rw [show dlookup ((k0, v0) :: t) k = dlookup t k by simp [dlookup, hk]]
        exact ih
    · rw [if_neg hn]
      push_neg at hn
      by_cases hk : k0 = k
      · subst hk
        subst hn
        simp [dlookup]
      · rw [show dlookup ((k0, v0) :: unset_other_defaults n t) k =
              dlookup (unset_other_defaults n t) k by simp [dlookup, hk]]
        rw [show dlookup ((k0, v0) :: t) k = dlookup t k by simp [dlookup, hk]]
        exact ih

theorem dmem_unset_other_defaults (n : String)
    (l : List (String × ModelConfigModel)) (k : String) :
    dmem (unset_other_defaults n l) k = dmem l k := by
  rcases h : dlookup l k with _ | c
  · simp [dmem, dlookup_unset_other_defaults, h]
  · simp [dmem, dlookup_unset_other_defaults, h]

theorem unset_other_defaults_false (n : String)
    (l : List (String × ModelConfigModel)) (k : String) (cfg : ModelConfigModel)
    (hne : k ≠ n) (h : dlookup (unset_other_defaults n l) k = some cfg) :
    cfg.is_default = false := by
  rw [dlookup_unset_other_defaults] at h
  rcases hl : dlookup l k with _ | c
  · rw [hl] at h
    simp at h
  · rw [hl] at h
    simp [hne] at h
    rw [← h]

/-- Well-formedness of a reachable `ModelService` state: the Python dicts
have unique keys, and every loaded name is registered. -/
def StateWF (st : ModelServiceState) : Prop :=
  (dkeys st.models).Nodup ∧ (dkeys st.loaded_models).Nodup ∧
    ∀ k, dmem st.loaded_models k = true → dmem st.models k = true

theorem models_write_wf (st : ModelServiceState) (name : String)
    (v : ModelConfigModel) (newModels : List (String × ModelConfigModel))
    (hcase : newModels = unset_other_defaults name (dset st.models name v) ∨
      newModels = dset st.models name v)
    (h : StateWF st) : StateWF { st with models := newModels } := by
  obtain ⟨h1, h2, h3⟩ := h
  rcases hcase with hc | hc <;> subst hc
  · refine ⟨?_, h2, ?_⟩
    · rw [dkeys_unset_other_defaults]
      exact nodup_dkeys_dset st.models name v h1
    · intro k hk
      rw [dmem_unset_other_defaults]
      exact (dmem_dset st.models name k v).mpr (Or.inr (h3 k hk))
  · refine ⟨nodup_dkeys_dset st.models name v h1, h2, ?_⟩
    intro k hk
    exact (dmem_dset st.models name k v).mpr (Or.inr (h3 k hk))

theorem register_model_wf (st : ModelServiceState) (r : RegisterModelRequestModel)
    (h : StateWF st) : StateWF (register_model st r).2 := by
  by_cases hm : dmem st.models r.name
  · simpa [register_model, hm] using h
  · have key : ∀ v : ModelConfigModel, StateWF
        { st with models :=
          if r.is_default then
            unset_other_defaults r.name (dset st.models r.name v)
          else dset st.models r.name v } := by
      intro v
      refine models_write_wf st r.name v _ ?_ h
      by_cases hd : r.is_default <;> simp [hd]
    unfold register_model
    rw [if_neg hm]
    exact key _

theorem unload_model_wf (st : ModelServiceState) (name : String)
    (h : StateWF st) : StateWF (unload_model st name).2 := by
  obtain ⟨h1, h2, h3⟩ := h
  by_cases hm : dmem st.loaded_models name
  · have hres : (unload_model st name).2 =
        { st with loaded_models := derase st.loaded_models name } := by
      simp [unload_model, hm]
    rw [hres]
    refine ⟨h1, nodup_dkeys_derase _ _ h2, ?_⟩
    intro k hk
    exact h3 k (dmem_derase_imp _ _ _ hk)
  · simpa [unload_model, hm] using ⟨h1, h2, h3⟩

theorem update_model_wf (st : ModelServiceState) (r : UpdateModelRequestModel)
    (h : StateWF st) : StateWF (update_model st r).2 := by
  rcases hm : dlookup st.models r.name with _ | cfg
  · simpa [update_model, hm] using h
  · have key : ∀ v : ModelConfigModel, StateWF
        { st with models :=
          if r.is_default = some true then
            unset_other_defaults r.name (dset st.models r.name v)
          else dset st.models r.name v } := by
      intro v
      refine models_write_wf st r.name v _ ?_ h
      by_cases hd : r.is_default = some true <;> simp [hd]
    have step : ∀ st' : ModelServiceState, StateWF st' →
        StateWF (if dmem st'.loaded_models r.name then (unload_model st' r.name).2
          else st') := by
      intro st' hst'
      by_cases hl : dmem st'.loaded_models r.name
      · simpa [hl] using unload_model_wf st' r.name hst'
      · simpa [hl] using hst'
    unfold update_model
    rw [hm]
    exact step _ (key _)

theorem unregister_model_wf (st : ModelServiceState) (name : String)
    (h : StateWF st) : StateWF (unregister_model st name).2 := by
  obtain ⟨h1, h2, h3⟩ := h
  by_cases hm : dmem st.models name
  · by_cases hl : dmem st.loaded_models name
    · have hres : (unregister_model st name).2 =
          { models := derase st.models name,
            loaded_models := derase st.loaded_models name,
            openai_client := st.openai_client } := by
        simp [unregister_model, hm, hl, unload_model]
      rw [hres]
      refine ⟨nodup_dkeys_derase _ _ h1, nodup_dkeys_derase _ _ h2, ?_⟩
      intro k hk
      by_cases hkn : k = name
      · subst hkn
        rw [dmem_derase_self st.loaded_models k h2] at hk
        exact absurd hk (by simp)
      · rw [dmem_derase_ne st.models name k hkn]
        exact h3 k (dmem_derase_imp _ _ _ hk)
    · have hres : (unregister_model st name).2 =
          { models := derase st.models name,
            loaded_models := st.loaded_models,
            openai_client := st.openai_client } := by
        simp [unregister_model, hm, hl]
      rw [hres]
      refine ⟨nodup_dkeys_derase _ _ h1, h2, ?_⟩
      intro k hk
      by_cases hkn : k = name
      · subst hkn
        exact absurd hk hl
      · rw [dmem_derase_ne st.models name k hkn]
        exact h3 k hk
  · simpa [unregister_model, hm] using ⟨h1, h2, h3⟩

theorem load_model_perform_wf (B : ProviderBackend) (st : ModelServiceState)
    (name : String) (cfg : ModelConfigModel)
    (hmem : dmem st.models name = true) (h : StateWF st) :
    StateWF (load_model_perform B st name cfg).2.1 := by
  obtain ⟨h1, h2, h3⟩ := h
  have store : ∀ m : LoadedModel,
      StateWF { st with loaded_models := dset st.loaded_models name m } := by
    intro m
    refine ⟨h1, nodup_dkeys_dset _ _ _ h2, ?_⟩
    intro k hk
    rcases (dmem_dset st.loaded_models name k m).mp hk with hkn | hkm
    · subst hkn
      exact hmem
    · exact h3 k hkm
  cases hp : cfg.provider with
  | huggingface =>
    rcases hlh : load_huggingface_model B cfg with ⟨r, n⟩
    cases r with
    | ok m => simpa [load_model_perform, hp, hlh] using store m
    | error e => simpa [load_model_perform, hp, hlh] using ⟨h1, h2, h3⟩
  | openai =>
    by_cases hc : st.openai_client
    · simpa [load_model_perform, hp, hc] using store .openaiMarker
    · simpa [load_model_perform, hp, hc] using ⟨h1, h2, h3⟩
  | sentence_transformers =>
    rcases hlh : load_sentence_transformers_model B cfg with ⟨r, n⟩
    cases r with
    | ok m => simpa [load_model_perform, hp, hlh] using store m
    | error e => simpa [load_model_perform, hp, hlh] using ⟨h1, h2, h3⟩
  | ollama => simpa [load_model_perform, hp] using ⟨h1, h2, h3⟩
  | custom => simpa [load_model_perform, hp] using ⟨h1, h2, h3⟩

theorem load_model_wf (B : ProviderBackend) (st : ModelServiceState)
    (name : String) (h : StateWF st) : StateWF (load_model B st name).2.1 := by
  unfold load_model
  cases hc : load_model_check st name with
  | earlyReturn r => exact h
  | proceed cfg =>
    have hmem : dmem st.models name = true := by
      rcases hl : dlookup st.models name with _ | c
      · simp [load_model_check, hl] at hc
      · simp [dmem, hl]
    exact load_model_perform_wf B st name cfg hmem h

theorem after_resolve_state_text (B : ProviderBackend) (st : ModelServiceState)
    (r : TextGenerationRequestModel) (model_name : String) :
    (generate_text_after_resolve B st r model_name).2.1 = st ∨
      (generate_text_after_resolve B st r model_name).2.1 =
        (load_model B st model_name).2.1 := by
  unfold generate_text_after_resolve
  by_cases hm : dmem st.models model_name
  · simp only [hm, not_true, if_neg, ite_false, Bool.true_eq_false]
    by_cases hl : dmem st.loaded_models model_name
    · simp only [hl, not_true, ite_false, Bool.true_eq_false]
      exact Or.inl trivial
    · simp only [hl, not_false_iff, ite_true, Bool.false_eq_true, if_neg,
        Bool.not_eq_true]
      rcases hres : load_model B st model_name with ⟨⟨b, msg⟩, st1, n⟩
      cases b
      · exact Or.inr rfl
      · exact Or.inr rfl
  · simp only [hm, Bool.false_eq_true, not_false_iff, ite_true]
    exact Or.inl trivial

theorem after_resolve_state_embed (B : ProviderBackend) (st : ModelServiceState)
    (r : EmbeddingRequestModel) (model_name : String) :
    (generate_embedding_after_resolve B st r model_name).2.1 = st ∨
      (generate_embedding_after_resolve B st r model_name).2.1 =
        (load_model B st model_name).2.1 := by
  unfold generate_embedding_after_resolve
  by_cases hm : dmem st.models model_name
  · simp only [hm, not_true, if_neg, ite_false, Bool.true_eq_false]
    by_cases hl : dmem st.loaded_models model_name
    · simp only [hl, not_true, ite_false, Bool.true_eq_false]
      exact Or.inl trivial
    · simp only [hl, not_false_iff, ite_true, Bool.false_eq_true, if_neg,
        Bool.not_eq_true]
      rcases hres : load_model B st model_name with ⟨⟨b, msg⟩, st1, n⟩
      cases b
      · exact Or.inr rfl
      · exact Or.inr rfl
  · simp only [hm, Bool.false_eq_true, not_false_iff, ite_true]
    exact Or.inl trivial

theorem generate_text_state (B : ProviderBackend) (st : ModelServiceState)
    (r : TextGenerationRequestModel) :
    (generate_text B st r).2.1 = st ∨
      ∃ nm, (generate_text B st r).2.1 = (load_model B st nm).2.1 := by
  unfold generate_text
  split
  · exact Or.inl rfl
  · rename_i model_name heq
    rcases after_resolve_state_text B st r model_name with h | h
    · exact Or.inl h
    · exact Or.inr ⟨model_name, h⟩

theorem generate_embedding_state (B : ProviderBackend) (st : ModelServiceState)
    (r : EmbeddingRequestModel) :
    (generate_embedding B st r).2.1 = st ∨
      ∃ nm, (generate_embedding B st r).2.1 = (load_model B st nm).2.1 := by
  unfold generate_embedding
  split
  · exact Or.inl rfl
  · rename_i model_name heq
    rcases after_resolve_state_embed B st r model_name with h | h
    · exact Or.inl h
    · exact Or.inr ⟨model_name, h⟩

theorem generate_text_wf (B : ProviderBackend) (st : ModelServiceState)
    (r : TextGenerationRequestModel) (h : StateWF st) :
    StateWF (generate_text B st r).2.1 := by
  rcases generate_text_state B st r with he | ⟨nm, he⟩
  · rw [he]
    exact h
  · rw [he]
    exact load_model_wf B st nm h

theorem generate_embedding_wf (B : ProviderBackend) (st : ModelServiceState)
    (r : EmbeddingRequestModel) (h : StateWF st) :
    StateWF (generate_embedding B st r).2.1 := by
  rcases generate_embedding_state B st r with he | ⟨nm, he⟩
  · rw [he]
    exact h
  · rw [he]
    exact load_model_wf B st nm h

theorem applyOp_wf (st : ModelServiceState) (op : Op) (h : StateWF st) :
    StateWF (applyOp st op) := by
  cases op with
  | register r => exact register_model_wf st r h
  | update r => exact update_model_wf st r h
  | unregister n => exact unregister_model_wf st n h
  | load B n => exact load_model_wf B st n h
  | unload n => exact unload_model_wf st n h
  | generateText B r => exact generate_text_wf B st r h
  | generateEmbedding B r => exact generate_embedding_wf B st r h

theorem initState_wf (c : Bool) : StateWF (initState c) := by
  refine ⟨List.nodup_nil, List.nodup_nil, ?_⟩
  intro k hk
  simp [initState, dmem, dlookup] at hk

theorem foldl_applyOp_wf (ops : List Op) :
    ∀ st : ModelServiceState, StateWF st → StateWF (ops.foldl applyOp st) := by
  induction ops with
  | nil => intro st h; exact h
  | cons op t ih =>
    intro st h
    exact ih _ (applyOp_wf st op h)

theorem run_wf (c : Bool) (ops : List Op) : StateWF (run c ops) :=
  foldl_applyOp_wf ops _ (initState_wf c)

/-- The C9 invariant as an executable check: every key of the loaded-handle
cache is a key of the model registry. -/
def loadedSubsetRegistered (st : ModelServiceState) : Bool :=
  st.loaded_models.all (fun p => dmem st.models p.1)

/-- C9: in every state reachable by any sequence of register, update,
unregister, load, unload, generateText and generateEmbedding operations,
the set of keys of the loaded-handle cache is a subset of the set of keys of
the model registry. -/
theorem c9_loaded_subset_registered (c : Bool) (ops : List Op) :
    loadedSubsetRegistered (run c ops) = true := by
  obtain ⟨h1, h2, h3⟩ := run_wf c ops
  unfold loadedSubsetRegistered
  rw [List.all_eq_true]
  intro p hp
  exact h3 p.1 (dmem_of_mem _ p.1 p.2 hp)

/-- C6: a `load_model` on a name whose handle is already in the loaded-model
cache (in any reachable service state) returns success with the
"already loaded" message, leaves the state unchanged, and performs zero
backend load invocations. -/
theorem c6_load_cached_noop (c : Bool) (ops : List Op) (B : ProviderBackend)
    (name : String) (h : dmem (run c ops).loaded_models name = true) :
    load_model B (run c ops) name =
      ((true, "Model " ++ name ++ " already loaded"), run c ops, 0) := by
  obtain ⟨h1, h2, h3⟩ := run_wf c ops
  rcases (dmem_iff_exists _ _).mp (h3 name h) with ⟨cfg, hcfg⟩
  unfold load_model load_model_check
  rw [hcfg]
  simp [h]

/-- A provider backend whose calls all succeed. -/
def BW : ProviderBackend :=
  { load := fun _ => .ok (.hfHandle 0)
    generate := fun _ _ => .ok ("ok", 1)
    embed := fun _ _ => .ok [0] }

/-- A HuggingFace generation model registration request. -/
def regW : RegisterModelRequestModel :=
  { name := "m1", provider := .huggingface, model_path := "p",
    model_type := "generation", description := "", is_default := false,
    config := [] }

/-- Register `m1` and load it. -/
def opsW : List Op := [.register regW, .load BW "m1"]

/-- Witness for C6 at a concrete reachable state with `m1` loaded. -/
theorem c6_load_cached_noop_witness :
    load_model BW (run false opsW) "m1" =
      ((true, "Model " ++ "m1" ++ " already loaded"), run false opsW, 0) :=
  c6_load_cached_noop false opsW BW "m1" (by decide)

/-- C7: in any reachable service state, a `update_model` on a registered and
currently loaded model succeeds and removes the loaded handle. -/
theorem c7_update_unloads (c : Bool) (ops : List Op)
    (r : UpdateModelRequestModel)
    (h1 : dmem (run c ops).models r.name = true)
    (h2 : dmem (run c ops).loaded_models r.name = true) :
    (update_model (run c ops) r).1.1 = true ∧
      dmem (update_model (run c ops) r).2.loaded_models r.name = false := by
  obtain ⟨w1, w2, w3⟩ := run_wf c ops
  rcases (dmem_iff_exists _ _).mp h1 with ⟨cfg, hcfg⟩
  constructor
  · unfold update_model
    rw [hcfg]
  · have hload : (update_model (run c ops) r).2.loaded_models =
        derase (run c ops).loaded_models r.name := by
      unfold update_model
      rw [hcfg]
      simp [unload_model, h2]
    rw [hload]
    exact dmem_derase_self _ _ w2

/-- An update request touching only the description of `m1`. -/
def updW : UpdateModelRequestModel :=
  { name := "m1", provider := none, model_path := none, model_type := none,
    description := some "d", is_default := none, config := none }

/-- Witness for C7 at a concrete reachable state with `m1` registered and
loaded. -/
theorem c7_update_unloads_witness :
    (update_model (run false opsW) updW).1.1 = true ∧
      dmem (update_model (run false opsW) updW).2.loaded_models updW.name = false :=
  c7_update_unloads false opsW updW (by decide) (by decide)

theorem get_default_model_eq_none (st : ModelServiceState) (t : String)
    (h : ∀ p ∈ st.models, ¬ (p.2.model_type = t ∧ p.2.is_default = true)) :
    get_default_model st t = none := by
  unfold get_default_model
  rw [Option.map_eq_none']
  rw [List.find?_eq_none]
  intro p hp
  simp only [Bool.and_eq_true, beq_iff_eq]
  intro hcon
  exact h p hp ⟨hcon.1, hcon.2⟩

/-- C8: with no model name given (Python-falsy), `generate_embedding` fails
with the no-default error, touching no state and performing no backend load,
when no registered descriptor is an embedding-type default; symmetrically for
`generate_text` against the generation type. -/
theorem c8_no_default_model_error (st : ModelServiceState) (B : ProviderBackend)
    (re : EmbeddingRequestModel) (rt : TextGenerationRequestModel)
    (he1 : pyTruthy re.model_name = false)
    (he2 : ∀ p ∈ st.models, ¬ (p.2.model_type = "embedding" ∧ p.2.is_default = true))
    (ht1 : pyTruthy rt.model_name = false)
    (ht2 : ∀ p ∈ st.models, ¬ (p.2.model_type = "generation" ∧ p.2.is_default = true)) :
    generate_embedding B st re =
      ((false, "No default embedding model available", none), st, 0) ∧
    generate_text B st rt =
      ((false, "No default generation model available", none), st, 0) := by
  have hge := get_default_model_eq_none st "embedding" he2
  have hgt := get_default_model_eq_none st "generation" ht2
  constructor
  · unfold generate_embedding
    rw [if_neg (by simp [he1]), hge]
  · unfold generate_text
    rw [if_neg (by simp [ht1]), hgt]

/-- An embedding request with no model name. -/
def reqEmbW : EmbeddingRequestModel := { model_name := none, text := "x" }

/-- A text-generation request with no model name. -/
def reqGenW : TextGenerationRequestModel :=
  { model_name := none, prompt := "x", max_tokens := 100, temperature := 0,
    top_p := 1 }

/-- Witness for C8 on the empty registry. -/
theorem c8_no_default_model_error_witness :
    generate_embedding BW (initState false) reqEmbW =
      ((false, "No default embedding model available", none), initState false, 0) ∧
    generate_text BW (initState false) reqGenW =
      ((false, "No default generation model available", none), initState false, 0) :=
  c8_no_default_model_error (initState false) BW reqEmbW reqGenW rfl
    (by intro p hp; simp [initState] at hp) rfl
    (by intro p hp; simp [initState] at hp)

/-- Registration of model A: an embedding-type default. -/
def regA : RegisterModelRequestModel :=
  { name := "A", provider := .huggingface, model_path := "pA",
    model_type := "embedding", description := "", is_default := true,
    config := [] }

/-- Registration of model B: a generation-type default. -/
def regB : RegisterModelRequestModel :=
  { name := "B", provider := .huggingface, model_path := "pB",
    model_type := "generation", description := "", is_default := true,
    config := [] }

/-- State after registering A. -/
def stA : ModelServiceState := (register_model (initState false) regA).2

/-- State after registering A then B. -/
def stB : ModelServiceState := (register_model stA regB).2

/-- C1 counterexample: registering B (generation, default) after A
(embedding, default) flips A's `is_default` to false even though A has a
different `model_type`, so a descriptor of a different type does not keep its
previous `isDefault` value. -/
theorem c1_register_flips_other_type_cex :
    regA.model_type ≠ regB.model_type ∧
    ((dlookup stA.models "A").map ModelConfigModel.is_default = some true) ∧
    ((dlookup stB.models "A").map ModelConfigModel.is_default = some false) := by
  decide

/-- C1 amended: a successful `register_model` with `is_default = true`
(resp. `update_model` with `is_default = some true`) forces
`is_default = false` on every other registered descriptor, regardless of its
`model_type`. -/
theorem c1_default_flip_clears_all_types
    (st : ModelServiceState) (r : RegisterModelRequestModel)
    (u : UpdateModelRequestModel)
    (hr1 : (register_model st r).1.1 = true) (hr2 : r.is_default = true)
    (hu1 : (update_model st u).1.1 = true) (hu2 : u.is_default = some true) :
    (∀ k cfg, k ≠ r.name →
        dlookup (register_model st r).2.models k = some cfg →
        cfg.is_default = false) ∧
    (∀ k cfg, k ≠ u.name →
        dlookup (update_model st u).2.models k = some cfg →
        cfg.is_default = false) := by
  constructor
  · intro k cfg hk hlk
    by_cases hm : dmem st.models r.name
    · rw [show (register_model st r).1.1 = false by simp [register_model, hm]] at hr1
      cases hr1
    · have hX : (register_model st r).2.models =
          unset_other_defaults r.name (dset st.models r.name
            { name := r.name, provider := r.provider, model_path := r.model_path,
              model_type := r.model_type, description := r.description,
              is_default := r.is_default, config := r.config }) := by
        unfold register_model
        rw [if_neg hm]
        simp [hr2]
      rw [hX] at hlk
      exact unset_other_defaults_false r.name _ k cfg hk hlk
  · intro k cfg hk hlk
    rcases hm : dlookup st.models u.name with _ | c0
    · rw [show (update_model st u).1.1 = false by simp [update_model, hm]] at hu1
      cases hu1
    · have hX : (update_model st u).2.models =
          unset_other_defaults u.name
            (dset st.models u.name (apply_update_fields c0 u)) := by
        unfold update_model
        rw [hm]
        by_cases hl : dmem st.loaded_models u.name <;>
          simp [hu2, hl, unload_model]
      rw [hX] at hlk
      exact unset_other_defaults_false u.name _ k cfg hk hlk

/-- An update request making `A` the default again. -/
def updA : UpdateModelRequestModel :=
  { name := "A", provider := none, model_path := none, model_type := none,
    description := none, is_default := some true, config := none }

/-- Witness for the amended C1: in the two-model state, registering a fresh
default `C` and updating `A` to default both clear `is_default` everywhere
else. -/
theorem c1_default_flip_clears_all_types_witness :
    (∀ k cfg, k ≠ "C" →
        dlookup (register_model stB
          { name := "C", provider := .huggingface, model_path := "pC",
            model_type := "embedding", description := "", is_default := true,
            config := [] }).2.models k = some cfg → cfg.is_default = false) ∧
    (∀ k cfg, k ≠ "A" →
        dlookup (update_model stB updA).2.models k = some cfg →
        cfg.is_default = false) :=
  c1_default_flip_clears_all_types stB
    { name := "C", provider := .huggingface, model_path := "pC",
      model_type := "embedding", description := "", is_default := true,
      config := [] }
    updA (by decide) rfl (by decide) rfl

/-- State with the HuggingFace generation model `m1` registered, not loaded. -/
def stM : ModelServiceState := (register_model (initState false) regW).2

/-- C3 counterexample: two `load_model "m1"` calls interleaved so that both
pass the not-loaded guard perform two backend load invocations, not one. -/
theorem c3_concurrent_loads_two_calls_cex :
    race_two_loads BW stM "m1" = 2 ∧ race_two_loads BW stM "m1" ≠ 1 := by
  decide

/-- C3 amended: the loader has no coalescing mechanism.  Serialized, the two
calls perform exactly one backend load (idempotence); but in the interleaving
in which both calls run the guard section before either stores its handle,
each invokes the backend, for two invocations in total. -/
theorem c3_load_no_coalescing
    (B : ProviderBackend) (st : ModelServiceState) (name : String)
    (cfg : ModelConfigModel) (m : LoadedModel)
    (h1 : dlookup st.models name = some cfg)
    (h2 : dmem st.loaded_models name = false)
    (h3 : cfg.provider = .huggingface)
    (h4 : cfg.model_type = "generation")
    (h5 : B.load cfg = .ok m) :
    sequential_two_loads B st name = 1 ∧ race_two_loads B st name = 2 := by
  have hcheck : load_model_check st name = .proceed cfg := by
    simp [load_model_check, h1, h2]
  have hperfGen : ∀ st' : ModelServiceState, load_model_perform B st' name cfg =
      ((true, "Model " ++ name ++ " loaded successfully"),
        { st' with loaded_models := dset st'.loaded_models name m }, 1) := by
    intro st'
    simp [load_model_perform, h3, load_huggingface_model, h4, h5]
  have hload1 : load_model B st name =
      ((true, "Model " ++ name ++ " loaded successfully"),
        { st with loaded_models := dset st.loaded_models name m }, 1) := by
    unfold load_model
    rw [hcheck]
    exact hperfGen st
  have hcheck2 : load_model_check
      { st with loaded_models := dset st.loaded_models name m } name =
      .earlyReturn (true, "Model " ++ name ++ " already loaded") := by
    simp [load_model_check, h1, dmem, dlookup_dset_self]
  have hload2 : load_model B
      { st with loaded_models := dset st.loaded_models name m } name =
      ((true, "Model " ++ name ++ " already loaded"),
        { st with loaded_models := dset st.loaded_models name m }, 0) := by
    unfold load_model
    rw [hcheck2]
  constructor
  · simp [sequential_two_loads, hload1, hload2]
  · simp [race_two_loads, hcheck, hperfGen]

/-- Witness for the amended C3 on the concrete one-model state. -/
theorem c3_load_no_coalescing_witness :
    sequential_two_loads BW stM "m1" = 1 ∧ race_two_loads BW stM "m1" = 2 :=
  c3_load_no_coalescing BW stM "m1"
    { name := "m1", provider := .huggingface, model_path := "p",
      model_type := "generation", description := "", is_default := false,
      config := [] }
    (.hfHandle 0) (by decide) (by decide) rfl rfl rfl

/-- HNSW/L2 index parameters. -/
def ip0 : IndexParamsModel :=
  { index_type := .hnsw, metric_type := .l2, params := [] }

/-- A behavior in which index creation raises. -/
def behIdxFail : MilvusBehavior :=
  { create_collection_fails := fun _ => false
    create_index_fails := fun _ => true }

/-- C2 counterexample: on a fresh backend where index creation fails after
collection creation succeeded, `create_collection` returns failure but the
just-created collection still exists and no drop call was issued — it is not
rolled back. -/
theorem c2_create_collection_no_rollback_cex :
    ((create_collection behIdxFail [] "c1" "d" 128 ip0).1.1 = false) ∧
    (dmem (create_collection behIdxFail [] "c1" "d" 128 ip0).2.1 "c1" = true) ∧
    (MilvusCall.dropCollection "c1" ∉
      (create_collection behIdxFail [] "c1" "d" 128 ip0).2.2) := by
  decide

/-- C2 amended: when the backend collection creation succeeds and the
subsequent index creation fails, `create_collection` returns a failure, but
the indexless collection remains in the backend and no drop (rollback) call
is ever issued. -/
theorem c2_index_failure_keeps_collection
    (beh : MilvusBehavior) (ms : MilvusState) (name description : String)
    (vector_dim : Int) (index_params : IndexParamsModel)
    (h1 : dmem ms name = false)
    (h2 : beh.create_collection_fails name = false)
    (h3 : beh.create_index_fails name = true) :
    (create_collection beh ms name description vector_dim index_params).1.1 =
      false ∧
    dlookup (create_collection beh ms name description vector_dim
        index_params).2.1 name =
      some { description := description, dim := vector_dim, index := none,
             records := [], loaded := false } ∧
    MilvusCall.dropCollection name ∉
      (create_collection beh ms name description vector_dim index_params).2.2 := by
  have hres : create_collection beh ms name description vector_dim index_params =
      ((false, "Failed to create collection: backend rejected index"),
        dset ms name
          { description := description, dim := vector_dim, index := none,
            records := [], loaded := false },
        [.hasCollection name, .createCollection name vector_dim,
          .createIndex name]) := by
    simp [create_collection, h1, h2, h3]
  rw [hres]
  refine ⟨rfl, dlookup_dset_self _ _ _, ?_⟩
  simp

/-- Witness for the amended C2 at the concrete failing backend. -/
theorem c2_index_failure_keeps_collection_witness :
    (create_collection behIdxFail [] "c1" "d" 128 ip0).1.1 = false ∧
    dlookup (create_collection behIdxFail [] "c1" "d" 128 ip0).2.1 "c1" =
      some { description := "d", dim := 128, index := none, records := [],
             loaded := false } ∧
    MilvusCall.dropCollection "c1" ∉
      (create_collection behIdxFail [] "c1" "d" 128 ip0).2.2 :=
  c2_index_failure_keeps_collection behIdxFail [] "c1" "d" 128 ip0 rfl rfl rfl

/-- C5 counterexample: with an accepting backend, `create_collection` with
`vector_dim = 0` returns success rather than a validation error, and its very
first action is a backend call. -/
theorem c5_dim_zero_not_validated_cex :
    ((create_collection behOk [] "c0" "d" 0 ip0).1.1 = true) ∧
    ((create_collection behOk [] "c0" "d" 0 ip0).2.2.head? =
      some (.hasCollection "c0")) := by
  decide

/-- C5 amended: `create_collection` performs no `vector_dim` validation: even
for `vector_dim ≤ 0` the first action is always the backend existence check,
and with an accepting backend the creation succeeds. -/
theorem c5_no_dim_validation
    (beh : MilvusBehavior) (ms : MilvusState) (name description : String)
    (vector_dim : Int) (index_params : IndexParamsModel)
    (hdim : vector_dim ≤ 0) :
    (create_collection beh ms name description vector_dim
        index_params).2.2.head? = some (.hasCollection name) ∧
    (dmem ms name = false → beh.create_collection_fails name = false →
      beh.create_index_fails name = false →
      (create_collection beh ms name description vector_dim
        index_params).1.1 = true) := by
  constructor
  · unfold create_collection
    by_cases h1 : dmem ms name
    · simp [h1]
    · by_cases h2 : beh.create_collection_fails name
      · simp [h1, h2]
      · by_cases h3 : beh.create_index_fails name
        · simp [h1, h2, h3]
        · simp [h1, h2, h3]
  · intro h1 h2 h3
    simp [create_collection, h1, h2, h3]

/-- Witness for the amended C5 at dimension zero. -/
theorem c5_no_dim_validation_witness :
    (create_collection behOk [] "c0" "d" 0 ip0).2.2.head? =
      some (.hasCollection "c0") ∧
    (dmem ([] : MilvusState) "c0" = false →
      behOk.create_collection_fails "c0" = false →
      behOk.create_index_fails "c0" = false →
      (create_collection behOk [] "c0" "d" 0 ip0).1.1 = true) :=
  c5_no_dim_validation behOk [] "c0" "d" 0 ip0 (by decide)

/-- A collection of dimension 3 with an index. -/
def colC : MilvusCollection :=
  { description := "", dim := 3, index := some ip0, records := [],
    loaded := false }

/-- A backend state holding only `c1`. -/
def msC : MilvusState := [("c1", colC)]

/-- A record whose vector length 2 differs from the collection dimension 3. -/
def badVec : VectorModel := { id := "v1", vector := [1, 2], metadata := none }

/-- C4 counterexample: inserting a record whose vector length differs from the
collection's dimension still invokes the backend insert (no prior validation
error), and the failure reported is the wrapped backend rejection. -/
theorem c4_insert_no_length_validation_cex :
    ((badVec.vector.length : Int) ≠ colC.dim) ∧
    (MilvusCall.insertRows "c1" [("v1", [1, 2])] ∈ (insert msC "c1" [badVec]).2.2) ∧
    ((insert msC "c1" [badVec]).1.1 = false) ∧
    ((insert msC "c1" [badVec]).1.2.1 =
      "Failed to insert vectors: vector dimension mismatch") := by
  decide

/-- C4 amended: on an existing collection, `insert` and `upsert` validate
nothing about vector lengths — the records are always handed to the backend
insert/upsert call, whatever their lengths. -/
theorem c4_insert_upsert_backend_always_called
    (ms : MilvusState) (collection_name : String) (vectors : List VectorModel)
    (c : MilvusCollection) (h : dlookup ms collection_name = some c) :
    (insert ms collection_name vectors).2.2 =
      [.hasCollection collection_name,
        .insertRows collection_name
          ((vectors.map VectorModel.id).zip (vectors.map VectorModel.vector))] ∧
    (upsert ms collection_name vectors).2.2 =
      [.hasCollection collection_name,
        .upsertRows collection_name
          ((vectors.map VectorModel.id).zip (vectors.map VectorModel.vector))] := by
  constructor
  · unfold insert
    rw [h]
    rcases hmi : milvus_insert c
        ((vectors.map VectorModel.id).zip (vectors.map VectorModel.vector))
      with e | c1
    · simp [hmi]
    · simp [hmi]
  · unfold upsert
    rw [h]
    rcases hmu : milvus_upsert c
        ((vectors.map VectorModel.id).zip (vectors.map VectorModel.vector))
      with e | c1
    · simp [hmu]
    · simp [hmu]

/-- Witness for the amended C4 on the concrete mismatched insert. -/
theorem c4_insert_upsert_backend_always_called_witness :
    (insert msC "c1" [badVec]).2.2 =
      [.hasCollection "c1",
        .insertRows "c1"
          ((([badVec]).map VectorModel.id).zip (([badVec]).map VectorModel.vector))] ∧
    (upsert msC "c1" [badVec]).2.2 =
      [.hasCollection "c1",
        .upsertRows "c1"
          ((([badVec]).map VectorModel.id).zip (([badVec]).map VectorModel.vector))] :=
  c4_insert_upsert_backend_always_called msC "c1" [badVec] colC (by decide)

/-- C10: every result of a successful `search` carries the caller's query
vector (when `include_vector` is set) or `None` (otherwise) in its `vector`
field — never the stored vector of the matched record. -/
theorem c10_search_returns_query_vector (ms : MilvusState)
    (collection_name : String) (query_vector : List Int)
    (options : SearchOptionsModel) (res : SearchResultModel)
    (hres : res ∈ (search ms collection_name query_vector options).1.2.2) :
    res.vector = if options.include_vector then some query_vector else none := by
  unfold search at hres
  rcases hc : dlookup ms collection_name with _ | c
  · rw [hc] at hres
    simp at hres
  · rw [hc] at hres
    have hres2 : res ∈ (milvus_search { c with loaded := true } query_vector
        options.topk).map (search_hit_to_result query_vector options) := hres
    rcases List.mem_map.mp hres2 with ⟨hit, hh, heq⟩
    rw [← heq]
    rfl

/-- A backend state with one collection `cw` holding the record
`("r1", [9, 9, 9])`. -/
def msW : MilvusState :=
  [("cw", { description := "", dim := 3, index := some ip0,
            records := [("r1", [9, 9, 9])], loaded := false })]

/-- Search options requesting vectors in the results. -/
def optsW : SearchOptionsModel := { topk := 5, include_vector := true, filter := none }

/-- Witness for C10: searching `cw` with query `[1, 2, 3]` returns a result
whose vector is the query vector, although the stored vector is `[9, 9, 9]`. -/
theorem c10_search_returns_query_vector_witness :
    ({ id := "r1", score := 0, vector := some [1, 2, 3], metadata := some [] } :
      SearchResultModel).vector =
      if optsW.include_vector then some [1, 2, 3] else none :=
  c10_search_returns_query_vector msW "cw" [1, 2, 3] optsW
    { id := "r1", score := 0, vector := some [1, 2, 3], metadata := some [] }
    (by decide)
